import Mathlib

/-!
Shallow embedding of the `python-synth` repository (the `src/python_synth`
draft, which the spec adopts as the most complete one), together with
theorems settling the frozen claims about its specification.

Python integers are modelled as `ℤ`; Python `//` (floor division) as
`Int.fdiv`, and a `//` whose divisor may be zero as `pyFloorDiv`, which
returns `Except` to mirror `ZeroDivisionError`.  Exceptions raised by the
code (`KeyError`, `StopIteration`, `SynthError`, validation errors,
`UnboundLocalError`) are modelled with `Except PyErr` or with `Option` where
the code catches them.  Python dicts holding the ADSR volume envelopes are
modelled as association lists with last-write-wins lookup.

The repository's `python_synth.settings` module is not present under `src/`,
so the configuration constants it would provide (`SAMPLES_PER_SECOND`, etc.)
are passed as parameters `S` below; the spec lists sample rates
16000/32000/48000/96000/192000 with default 192000.
-/

namespace PySynth

/-- Python exceptions that the embedded code can raise.  `hang` stands for a
`next()` call on a generator that loops forever without yielding (the
oscillator generator with an empty sample table). -/
inductive PyErr where
  | keyError
  | zeroDivision
  | unboundLocal
  | synthError
  | validationError
  | hang
  deriving DecidableEq

/-- `constants.ANALOGUE_MAX` (src/python_synth/constants.py line 46). -/
def ANALOGUE_MAX : ℤ := 256

/-- `ADSR_STATUS['OFF']` (src/python_synth/constants.py lines 35-41). -/
def ADSR_OFF : ℤ := 0

/-- `ADSR_STATUS['ATTACK']`. -/
def ADSR_ATTACK : ℤ := 1

/-- `ADSR_STATUS['DECAY']`. -/
def ADSR_DECAY : ℤ := 2

/-- `ADSR_STATUS['SUSTAIN']`. -/
def ADSR_SUSTAIN : ℤ := 3

/-- `ADSR_STATUS['RELEASE']`. -/
def ADSR_RELEASE : ℤ := 4

/-- `NOTE_EVENTS['NOTE_ON']` (src/python_synth/constants.py lines 25-28). -/
def NOTE_ON : ℤ := 0

/-- `NOTE_EVENTS['NOTE_OFF']`. -/
def NOTE_OFF : ℤ := 1

/-- `EVENT_QUEUE_MAX_SIZE` (src/synth/constants.py line 55; the
`python_synth.settings` module that would hold the same constant for the
newer draft is not under src/). -/
def EVENT_QUEUE_MAX_SIZE : ℕ := 127

/-- Python `a // b`: floor division, raising `ZeroDivisionError` when
`b = 0`. -/
def pyFloorDiv (a b : ℤ) : Except PyErr ℤ :=
  if b = 0 then .error .zeroDivision else .ok (Int.fdiv a b)

/-- Python `range(n)` over integers, as a list of `ℤ`. -/
def pyRange (n : ℤ) : List ℤ :=
  (List.range n.toNat).map (fun i => (i : ℤ))

/-- Python `range(start, stop, -1)` over integers. -/
def pyRangeDown (start stop : ℤ) : List ℤ :=
  (List.range (start - stop).toNat).map (fun i => start - (i : ℤ))

/-- A Python `dict` with `int` keys and values, as an association list:
insertion prepends, lookup takes the first (i.e. most recent) match, so a
repeated key overwrites the earlier entry. -/
abbrev VolMap := List (ℤ × ℤ)

/-- `volume_map[sample_idx] = volume`. -/
def dictInsert (m : VolMap) (k v : ℤ) : VolMap := (k, v) :: m

/-- `sample_idx in volume_map` / `volume_map[sample_idx]` combined. -/
def dictLookup (m : VolMap) (k : ℤ) : Option ℤ := List.lookup k m

/-- `Note._get_sample_idx_volume_map` (src/python_synth/synth.py lines
266-315), with `num_attack_samples`, `num_decay_samples`, `sustain_level` as
arguments as in the source.  Note that in the `decay has fewer samples than
volume changes` branch the source stores the entries at `sample_idx` WITHOUT
adding `num_attack_samples`, unlike the sibling branch; the embedding keeps
that behaviour. -/
def get_sample_idx_volume_map (num_attack_samples num_decay_samples sustain_level : ℤ) :
    Except PyErr VolMap := do
  let attack_sustain_volume_diff := ANALOGUE_MAX - sustain_level
  let m₁ ←
    if num_attack_samples > ANALOGUE_MAX then do
      let samples_per_volume_increase ← pyFloorDiv num_attack_samples ANALOGUE_MAX
      pure ((pyRange (ANALOGUE_MAX + 1)).foldl
        (fun m volume => dictInsert m (volume * samples_per_volume_increase) volume) [])
    else do
      let volume_increase_per_sample ← pyFloorDiv ANALOGUE_MAX num_attack_samples
      pure ((pyRange num_attack_samples).foldl
        (fun m sample_idx => dictInsert m sample_idx (sample_idx * volume_increase_per_sample)) [])
  if attack_sustain_volume_diff = 0 then
    pure m₁
  else if num_decay_samples > attack_sustain_volume_diff then do
    let samples_per_volume_decrease ← pyFloorDiv num_decay_samples attack_sustain_volume_diff
    pure ((pyRangeDown ANALOGUE_MAX (sustain_level - 1)).foldl
      (fun m volume =>
        dictInsert m (samples_per_volume_decrease * (ANALOGUE_MAX - volume) + num_attack_samples)
          volume) m₁)
  else do
    let volume_decrease_per_sample ← pyFloorDiv attack_sustain_volume_diff num_decay_samples
    pure ((pyRange num_decay_samples).foldl
      (fun m sample_idx =>
        dictInsert m sample_idx (ANALOGUE_MAX - sample_idx * volume_decrease_per_sample)) m₁)

/-- `Note._get_release_sample_idx_volume_map` (src/python_synth/synth.py
lines 317-349).  `S` is the absent settings module's `SAMPLES_PER_SECOND`. -/
def get_release_sample_idx_volume_map (release_ms S start_volume : ℤ) :
    Except PyErr VolMap := do
  let num_release_samples := Int.fdiv (release_ms * S) 1000
  if start_volume = 0 then
    pure []
  else if num_release_samples > start_volume then do
    let samples_per_volume_decrease ← pyFloorDiv num_release_samples start_volume
    pure ((pyRangeDown start_volume (-1)).foldl
      (fun m volume =>
        dictInsert m (samples_per_volume_decrease * (start_volume - volume)) volume) [])
  else do
    let volume_decrease_per_sample ← pyFloorDiv start_volume num_release_samples
    pure ((pyRange num_release_samples).foldl
      (fun m sample_idx =>
        dictInsert m sample_idx (start_volume - sample_idx * volume_decrease_per_sample)) [])

/-- `NoteSample` (src/python_synth/synth.py lines 38-44). -/
structure NoteSample where
  amplitude : ℤ
  volume : ℤ
  deriving DecidableEq

/-- The state of a `Note` object (src/python_synth/synth.py lines 47-133).
The lazy `sample_generator` provisioned by `Synth.get_note` cycles a
precomputed table of amplitudes; it is represented by the table plus a read
cursor. -/
structure Note where
  midi_note : ℤ
  attack_ms : ℤ
  decay_ms : ℤ
  release_ms : ℤ
  sustain_level : ℤ
  table : List ℤ
  osc_cursor : ℕ
  sample_idx : ℤ
  release_sample_idx : ℤ
  volume : ℤ
  adsr_status : ℤ
  sample_idx_volume_map : VolMap
  release_sample_idx_volume_map : VolMap
  num_attack_samples : ℤ
  num_decay_samples : ℤ
  num_release_samples : ℤ
  decay_start_idx : ℤ
  sustain_start_idx : ℤ
  deriving DecidableEq

/-- `validators.validate_milliseconds` (src/python_synth/validators.py lines
20-23). -/
def validate_milliseconds (value : ℤ) : Except PyErr Unit :=
  if value < 0 then .error .validationError else .ok ()

/-- `validators.validate_analogue` (src/python_synth/validators.py lines
11-17). -/
def validate_analogue (value : ℤ) : Except PyErr Unit :=
  if value < 0 ∨ value > ANALOGUE_MAX then .error .validationError else .ok ()

/-- Construction of a `Note`: the attrs validators followed by
`Note.__attrs_post_init__` (src/python_synth/synth.py lines 110-133).  Note
that the derived sample counts `ms * S // 1000` are NOT clamped to a
minimum. -/
def noteInit (S midi : ℤ) (table : List ℤ) (attack_ms decay_ms release_ms sustain_level : ℤ) :
    Except PyErr Note := do
  validate_milliseconds attack_ms
  validate_milliseconds decay_ms
  validate_milliseconds release_ms
  validate_analogue sustain_level
  let num_attack_samples := Int.fdiv (attack_ms * S) 1000
  let num_decay_samples := Int.fdiv (decay_ms * S) 1000
  let num_release_samples := Int.fdiv (release_ms * S) 1000
  let decay_start_idx := num_attack_samples + 1
  let sustain_start_idx := decay_start_idx + num_decay_samples
  let m ← get_sample_idx_volume_map num_attack_samples num_decay_samples sustain_level
  pure
    { midi_note := midi
      attack_ms := attack_ms
      decay_ms := decay_ms
      release_ms := release_ms
      sustain_level := sustain_level
      table := table
      osc_cursor := 0
      sample_idx := 0
      release_sample_idx := 0
      volume := 0
      adsr_status := ADSR_OFF
      sample_idx_volume_map := m
      release_sample_idx_volume_map := []
      num_attack_samples := num_attack_samples
      num_decay_samples := num_decay_samples
      num_release_samples := num_release_samples
      decay_start_idx := decay_start_idx
      sustain_start_idx := sustain_start_idx }

/-- `Note.set_key_down` (src/python_synth/synth.py lines 156-162). -/
def set_key_down (n : Note) : Note :=
  { n with adsr_status := ADSR_ATTACK }

/-- `Note.set_key_up` (src/python_synth/synth.py lines 164-173): enter
RELEASE and compute the release volume map from the current volume.  Can
raise `ZeroDivisionError` when `release_ms * S // 1000 = 0` and the current
volume is positive. -/
def set_key_up (S : ℤ) (n : Note) : Except PyErr Note := do
  let rmap ← get_release_sample_idx_volume_map n.release_ms S n.volume
  pure { n with adsr_status := ADSR_RELEASE, release_sample_idx_volume_map := rmap }

/-- `Note._get_new_adsr_status` (src/python_synth/synth.py lines 238-264).
Returns `none` where Python returns `None` (no transition). -/
def get_new_adsr_status (old_adsr_status sample_idx release_sample_idx
    decay_start_idx sustain_start_idx num_release_samples : ℤ) :
    Except PyErr (Option ℤ) :=
  if old_adsr_status = ADSR_ATTACK ∧ sample_idx = decay_start_idx then
    .ok (some ADSR_DECAY)
  else if old_adsr_status = ADSR_DECAY ∧ sample_idx = sustain_start_idx then
    .ok (some ADSR_SUSTAIN)
  else if old_adsr_status = ADSR_RELEASE ∧ release_sample_idx = num_release_samples then
    .ok (some ADSR_OFF)
  else if old_adsr_status = ADSR_OFF then
    .error .synthError
  else
    .ok none

/-- `Note._get_new_volume` (src/python_synth/synth.py lines 216-236).  The
`sustain_level` argument is present but unused, as in the source. -/
def get_new_volume (sample_idx release_sample_idx : ℤ)
    (sample_idx_volume_map release_sample_idx_volume_map : VolMap)
    (adsr_status sustain_level : ℤ) : Except PyErr (Option ℤ) :=
  match dictLookup sample_idx_volume_map sample_idx with
  | some v => .ok (some v)
  | none =>
    match dictLookup release_sample_idx_volume_map release_sample_idx with
    | some v => .ok (some v)
    | none => if adsr_status = ADSR_OFF then .error .synthError else .ok none

/-- One `next()` on the oscillator generator built by `Synth.get_note`
(src/python_synth/synth.py lines 388-390): cycle the precomputed table.
`none` when the table is empty, in which case the generator loops forever
without yielding. -/
def oscNext (table : List ℤ) (cursor : ℕ) : Option ℤ :=
  table.get? (cursor % table.length)

/-- `Note.next` (src/python_synth/synth.py lines 175-214).  The result is
`(none, n')` when the call raises `StopIteration` (envelope entered OFF),
and `(some sample, n')` otherwise; `n'` is the mutated note. -/
def noteNext (n : Note) : Except PyErr (Option NoteSample × Note) := do
  let some amp := oscNext n.table n.osc_cursor | .error .hang
  let volume := n.volume
  let release_sample_idx :=
    if n.adsr_status = ADSR_RELEASE then n.release_sample_idx + 1 else n.release_sample_idx
  let sample_idx := n.sample_idx + 1
  let next_status ← get_new_adsr_status n.adsr_status sample_idx release_sample_idx
    n.decay_start_idx n.sustain_start_idx n.num_release_samples
  let adsr_status := next_status.getD n.adsr_status
  if next_status = some ADSR_OFF then
    pure (none,
      { n with osc_cursor := n.osc_cursor + 1, sample_idx := sample_idx,
               release_sample_idx := release_sample_idx, adsr_status := adsr_status })
  else do
    let next_volume ← get_new_volume sample_idx release_sample_idx
      n.sample_idx_volume_map n.release_sample_idx_volume_map adsr_status n.sustain_level
    pure (some ⟨amp, volume⟩,
      { n with osc_cursor := n.osc_cursor + 1, sample_idx := sample_idx,
               release_sample_idx := release_sample_idx, adsr_status := adsr_status,
               volume := next_volume.getD n.volume })

/-- `NoteEvent` (src/python_synth/processor.py lines 22-25): the event type
tag together with the carried `Note` object, represented by its identity
`noteId` in the store plus its `midi_note` attribute. -/
structure NoteEvent where
  event_type : ℤ
  noteId : ℕ
  midi : ℤ
  deriving DecidableEq

/-- The mutable state of a `Processor` together with the local variables of
its `sample_generator` loop (src/python_synth/processor.py lines 28-123):
`queue` is `_notes_event_queue` (drained FIFO), `notes` the `_notes` dict
mapping midi note to the most recent `Note` at that pitch, `notesOn` the
`notes_on` set and `dead` the `dead_notes` set (both by note identity, in
iteration order), and `store` maps note identities to `Note` states. -/
structure MixerState where
  queue : List NoteEvent
  notes : List (ℤ × ℕ)
  notesOn : List ℕ
  dead : List ℕ
  store : List (ℕ × Note)
  deriving DecidableEq

/-- Dereference a note identity.  In Python the object is simply reachable;
a dangling identity is a modelling error surfaced as `keyError`. -/
def storeGet (store : List (ℕ × Note)) (nid : ℕ) : Except PyErr Note :=
  match List.lookup nid store with
  | some n => .ok n
  | none => .error .keyError

/-- Overwrite a note identity's state. -/
def storeSet (store : List (ℕ × Note)) (nid : ℕ) (n : Note) : List (ℕ × Note) :=
  (nid, n) :: store

/-- `self._notes[note.midi_note] = note`. -/
def dictSetPitch (notes : List (ℤ × ℕ)) (m : ℤ) (nid : ℕ) : List (ℤ × ℕ) :=
  (m, nid) :: notes

/-- `self._notes.pop(midi)`: `none` models the `KeyError` on a missing key;
otherwise the mapped note identity and the dict with the key removed. -/
def dictPopPitch (notes : List (ℤ × ℕ)) (m : ℤ) : Option (ℕ × List (ℤ × ℕ)) :=
  match List.lookup m notes with
  | none => none
  | some nid => some (nid, notes.filter (fun p => decide (p.1 ≠ m)))

/-- Processing of one drained `NoteEvent` (src/python_synth/processor.py
lines 86-97).  For NOTE_ON the carried note is key-downed, stored under its
pitch and added to `notes_on`; for NOTE_OFF the pitch is popped from
`_notes` — a missing pitch raises `KeyError` — and the popped note is
key-upped (it stays in `notes_on`). -/
def processEvent (S : ℤ) (st : MixerState) (ev : NoteEvent) : Except PyErr MixerState := do
  let st₁ ←
    if ev.event_type = NOTE_ON then do
      let note ← storeGet st.store ev.noteId
      let note' := set_key_down note
      pure { st with
        store := storeSet st.store ev.noteId note'
        notes := dictSetPitch st.notes note.midi_note ev.noteId
        notesOn := if ev.noteId ∈ st.notesOn then st.notesOn else st.notesOn ++ [ev.noteId] }
    else
      pure st
  if ev.event_type = NOTE_OFF then
    match dictPopPitch st₁.notes ev.midi with
    | none => .error .keyError
    | some (nid, notes') => do
      let note ← storeGet st₁.store nid
      let note' ← set_key_up S note
      pure { st₁ with notes := notes', store := storeSet st₁.store nid note' }
  else
    pure st₁

/-- The event-drain loop of `sample_generator` (src/python_synth/processor.py
lines 85-97): pop every queued event in FIFO order and process it. -/
def drainEvents (S : ℤ) (st : MixerState) : Except PyErr MixerState :=
  st.queue.foldlM (processEvent S) { st with queue := [] }

/-- The purge step (src/python_synth/processor.py lines 99-103): remove the
previous sample's dead notes from `notes_on` and clear `dead_notes`. -/
def purgeDead (st : MixerState) : MixerState :=
  { st with notesOn := st.notesOn.filter (fun nid => decide (nid ∉ st.dead)), dead := [] }

/-- The running accumulators of one iteration of the sample loop
(src/python_synth/processor.py lines 81-83 and 105-116), together with the
`note_sample` local variable: after `except StopIteration` the loop body
falls through and reads `note_sample` from the PREVIOUS iteration
(`lastSample`), there being no `continue` in the source. -/
structure SumAcc where
  volMax : ℤ
  volSum : ℤ
  ampSum : ℤ
  lastSample : Option NoteSample
  deriving DecidableEq

/-- The accumulation statements of the sum loop (lines 112-116). -/
def accumulate (acc : SumAcc) (s : NoteSample) : SumAcc :=
  { volMax := if s.volume > acc.volMax then s.volume else acc.volMax
    volSum := acc.volSum + s.volume
    ampSum := acc.ampSum + s.volume * s.amplitude
    lastSample := some s }

/-- One iteration of `for note in notes_on` (src/python_synth/processor.py
lines 106-116): `next(note)`; on `StopIteration` the note joins `dead_notes`
and — because the handler does not `continue` — the stale `note_sample` is
accumulated again, raising `UnboundLocalError` when no note has yielded a
sample yet. -/
def sumStep (state : SumAcc × List (ℕ × Note) × List ℕ) (nid : ℕ) :
    Except PyErr (SumAcc × List (ℕ × Note) × List ℕ) := do
  let (acc, store, dead) := state
  let note ← storeGet store nid
  let (res, note') ← noteNext note
  let store' := storeSet store nid note'
  match res with
  | some s => pure (accumulate acc s, store', dead)
  | none =>
    match acc.lastSample with
    | some prev => pure (accumulate acc prev, store', dead ++ [nid])
    | none => .error .unboundLocal

/-- The sum loop over `notes_on` (src/python_synth/processor.py lines
105-116), threading the note store and collecting this sample's dead set. -/
def sumLoop (st : MixerState) : Except PyErr (SumAcc × MixerState) := do
  let (acc, store', dead') ← st.notesOn.foldlM sumStep (⟨0, 0, 0, none⟩, st.store, st.dead)
  pure (acc, { st with store := store', dead := dead' })

/-- The combine step (src/python_synth/processor.py lines 118-123): the
yielded byte is `amp_sum * vol_max // (vol_sum * ANALOGUE_MAX) + 127` when
`vol_sum` is nonzero, else `127`. -/
def combine (acc : SumAcc) : ℤ :=
  if acc.volSum ≠ 0 then
    Int.fdiv (acc.ampSum * acc.volMax) (acc.volSum * ANALOGUE_MAX) + 127
  else
    127

/-- One full iteration of the `while True` loop of
`Processor.sample_generator` (src/python_synth/processor.py lines 80-123):
drain events, purge the previous sample's dead notes, advance every live
note, and combine into the yielded output sample. -/
def sampleStep (S : ℤ) (st : MixerState) : Except PyErr (ℤ × MixerState) := do
  let st₁ ← drainEvents S st
  let st₂ := purgeDead st₁
  let (acc, st₃) ← sumLoop st₂
  pure (combine acc, st₃)

/-- The empty `Processor` state: fresh queue, no notes. -/
def mixerInit : MixerState := ⟨[], [], [], [], []⟩

/-- `collections.deque(maxlen := cap).append`: when the deque already holds
`cap` items, appending on the right silently discards the OLDEST item on the
left (src/python_synth/processor.py lines 38-41 create
`_notes_event_queue` this way). -/
def appendMaxlen {α : Type} (cap : ℕ) (q : List α) (e : α) : List α :=
  (q ++ [e]).drop (q.length + 1 - cap)

/-- `Synth.get_note` (src/python_synth/synth.py lines 366-392): builds the
oscillator's one-cycle amplitude table of length `samples_per_cycle` and
constructs a `Note` with the default envelope (attack, decay, release 100 ms,
sustain level 200).  `amp i` stands for the float computation
`int(sin(2 * pi * i / samples_per_cycle) * 127)`; no property below depends
on its values.  There is no check on `samples_per_cycle`. -/
def getNote (S midi : ℤ) (amp : ℤ → ℤ) (samples_per_cycle : ℤ) : Except PyErr Note :=
  noteInit S midi ((pyRange samples_per_cycle).map amp) 100 100 100 200

/-- `helpers.midi_note_to_frequency` (src/python_synth/helpers.py lines
103-108): `27.5 * 2 ** ((midi_note - 21) / 12)` hertz. -/
noncomputable def midi_note_to_frequency (midi_note : ℤ) : ℝ :=
  27.5 * (2 : ℝ) ^ (((midi_note : ℝ) - 21) / 12)

/-- `constants.LETTER_TO_MIDI_NOTE_MAP` (src/python_synth/constants.py lines
10-23) looked up at the upper-cased first character of the note name.  The
two-character keys of the source dict (`C#` etc.) can never be hit by a
single-character lookup and are omitted. -/
def LETTER_TO_MIDI_NOTE_MAP (c : Char) : Option ℤ :=
  if c = 'C' then some 60
  else if c = 'D' then some 62
  else if c = 'E' then some 64
  else if c = 'F' then some 65
  else if c = 'G' then some 67
  else if c = 'A' then some 69
  else if c = 'B' then some 71
  else none

/-- Python `int(ch)` on a single character: its digit value, or a
`ValueError` (modelled `none`) otherwise. -/
def charDigit (c : Char) : Option ℤ :=
  if c.isDigit then some ((c.toNat : ℤ) - 48) else none

/-- The modifier loop of `helpers.letter_note_to_midi_note`
(src/python_synth/helpers.py lines 118-128): flats subtract 1, sharps add 1,
a digit `o` adds `12 * o - 12 * 5` (C5 is middle C). -/
def applyModifiers : ℤ → List Char → Option ℤ
  | m, [] => some m
  | m, c :: cs =>
    if c = 'b' ∨ c = '♭' then applyModifiers (m - 1) cs
    else if c = '#' ∨ c = '♯' then applyModifiers (m + 1) cs
    else
      match charDigit c with
      | some o => applyModifiers (m + (12 * o - 12 * 5)) cs
      | none => none

/-- `helpers.letter_note_to_midi_note` (src/python_synth/helpers.py lines
111-130), over the character sequence of the note name. -/
def letter_note_to_midi_note (letter_note : List Char) : Option ℤ :=
  match letter_note with
  | [] => none
  | c :: rest =>
    match LETTER_TO_MIDI_NOTE_MAP c.toUpper with
    | some m => applyModifiers m rest
    | none => none

/-- The observable outcome of one call to a function wrapped by
`helpers.simple_cache`: the returned value, the cache afterwards, and
whether the underlying function was invoked. -/
structure CacheResult (κ : Type) where
  value : ℤ
  cache : κ → Option ℤ
  invoked : Bool

/-- One call through the wrapper returned by `helpers.simple_cache`
(src/python_synth/helpers.py lines 17-45), for an integer-returning wrapped
function of one argument (the key plays the role of the hash-sum cache key).
The cache-hit test is `if cache.get(cache_key):` — the truthiness of the
cached value, i.e. hit only when a NONZERO value is stored — after which the
computed value is stored and returned. -/
def simple_cache_call {κ : Type} [DecidableEq κ] (func : κ → ℤ)
    (cache : κ → Option ℤ) (k : κ) : CacheResult κ :=
  let hit : Bool :=
    match cache k with
    | some v => decide (v ≠ 0)
    | none => false
  if hit then
    ⟨(cache k).getD 0, cache, false⟩
  else
    ⟨func k, fun x => if x = k then some (func k) else cache x, true⟩

/-- `n` successive calls of a `simple_cache`-wrapped function at the same
key, starting from the empty cache; returns the final cache and the list of
(returned value, was the wrapped function invoked) pairs in call order. -/
def simple_cache_calls {κ : Type} [DecidableEq κ] (func : κ → ℤ) (k : κ) :
    ℕ → ((κ → Option ℤ) × List (ℤ × Bool))
  | 0 => (fun _ => none, [])
  | n + 1 =>
    let (c, rs) := simple_cache_calls func k n
    let r := simple_cache_call func c k
    (r.cache, rs ++ [(r.value, r.invoked)])

/-! Concrete states and traces used by the claim theorems. -/

/-- Run at most `k` further `next()` calls on a note, collecting the
`(adsr_status, volume)` pair observed at each yielded sample; stop early at
`StopIteration`. -/
def noteTraceGo : ℕ → Note → Except PyErr (List (ℤ × ℤ))
  | 0, _ => .ok []
  | k + 1, n => do
    let (res, n') ← noteNext n
    match res with
    | none => pure []
    | some s => do
      let rest ← noteTraceGo k n'
      pure ((n.adsr_status, s.volume) :: rest)

/-- Construct a note, press its key, and record the `(adsr_status, volume)`
pairs of its first `k` samples. -/
def noteTrace (S midi : ℤ) (table : List ℤ) (attack_ms decay_ms release_ms sustain_level : ℤ)
    (k : ℕ) : Except PyErr (List (ℤ × ℤ)) := do
  let n₀ ← noteInit S midi table attack_ms decay_ms release_ms sustain_level
  noteTraceGo k (set_key_down n₀)

/-- The `i`-th NoteOn event of a burst (identity and pitch both `i`). -/
def noteOnEvent (i : ℕ) : NoteEvent := ⟨NOTE_ON, i, (i : ℤ)⟩

/-- A burst of `k` NoteOn events appended to an initially empty
`deque(maxlen := cap)` faster than the Mixer drains. -/
def burstQueue (cap k : ℕ) : List NoteEvent :=
  (List.range k).foldl (fun q i => appendMaxlen cap q (noteOnEvent i)) []

/-- A note sitting on its sustain plateau with empty volume maps: every
`next()` yields amplitude 10 at volume 100 and never stops. -/
def liveNote : Note :=
  { midi_note := 60
    attack_ms := 100
    decay_ms := 100
    release_ms := 100
    sustain_level := 200
    table := [10]
    osc_cursor := 0
    sample_idx := 0
    release_sample_idx := 0
    volume := 100
    adsr_status := ADSR_SUSTAIN
    sample_idx_volume_map := []
    release_sample_idx_volume_map := []
    num_attack_samples := 1600
    num_decay_samples := 1600
    num_release_samples := 1600
    decay_start_idx := 1601
    sustain_start_idx := 3201 }

/-- A note one sample from the end of its release: the next `next()` call
raises `StopIteration` (the envelope transitions to OFF). -/
def exhaustedNote : Note :=
  { midi_note := 61
    attack_ms := 100
    decay_ms := 100
    release_ms := 100
    sustain_level := 200
    table := [7]
    osc_cursor := 0
    sample_idx := 5
    release_sample_idx := 0
    volume := 50
    adsr_status := ADSR_RELEASE
    sample_idx_volume_map := []
    release_sample_idx_volume_map := []
    num_attack_samples := 1
    num_decay_samples := 1
    num_release_samples := 1
    decay_start_idx := 2
    sustain_start_idx := 3 }

/-- A mixer state whose `notes_on` iteration meets `liveNote` first and then
the exhausted note. -/
def c2State : MixerState :=
  ⟨[], [(60, 1), (61, 2)], [1, 2], [], [(1, liveNote), (2, exhaustedNote)]⟩

/-- A note on its sustain plateau emitting amplitude `a` at constant volume
`V`. -/
def sustainNote (a V : ℤ) : Note :=
  { midi_note := 60
    attack_ms := 100
    decay_ms := 100
    release_ms := 100
    sustain_level := 200
    table := [a]
    osc_cursor := 0
    sample_idx := 0
    release_sample_idx := 0
    volume := V
    adsr_status := ADSR_SUSTAIN
    sample_idx_volume_map := []
    release_sample_idx_volume_map := []
    num_attack_samples := 1600
    num_decay_samples := 1600
    num_release_samples := 1600
    decay_start_idx := 1601
    sustain_start_idx := 3201 }

/-- A mixer with exactly the one voice `sustainNote a V` live. -/
def singleVoiceState (a V : ℤ) : MixerState :=
  ⟨[], [(60, 1)], [1], [], [(1, sustainNote a V)]⟩

/-- A mixer state whose only live note is the exhausted one, so the first
sum-loop iteration already raises `StopIteration`. -/
def c2StateRev : MixerState :=
  ⟨[], [(61, 2)], [2], [], [(2, exhaustedNote)]⟩

/-!  Theorems settling the claims. -/

/-- Claim C1, counterexample: draining a NoteOff for pitch 60 when no note
is live does NOT leave the Mixer undisturbed — `self._notes.pop(midi)` is
called without a default and raises `KeyError`. -/
theorem noteoff_unknown_pitch_keyerror_cex :
    processEvent 16000 mixerInit ⟨NOTE_OFF, 0, 60⟩ = .error PyErr.keyError ∧
      (Except.error PyErr.keyError ≠ (Except.ok mixerInit : Except PyErr MixerState)) :=
  ⟨rfl, fun h => Except.noConfusion h⟩

/-- Claim C1, amended: for every drained NoteOff event whose pitch has no
entry in the by-pitch map, processing the event raises `KeyError` (missing
lookups are NOT silently ignored). -/
theorem noteoff_unknown_pitch_keyerror (S : ℤ) (st : MixerState) (ev : NoteEvent)
    (htype : ev.event_type = NOTE_OFF) (hmiss : List.lookup ev.midi st.notes = none) :
    processEvent S st ev = .error PyErr.keyError := by
  simp [processEvent, htype, NOTE_ON, NOTE_OFF, dictPopPitch, hmiss]

/-- Claim C1, witness: the amended theorem applied to the empty mixer and a
NoteOff for pitch 60. -/
theorem noteoff_unknown_pitch_keyerror_witness :
    (NoteEvent.mk NOTE_OFF 0 60).event_type = NOTE_OFF ∧
      List.lookup (NoteEvent.mk NOTE_OFF 0 60).midi mixerInit.notes = none ∧
      processEvent 16000 mixerInit ⟨NOTE_OFF, 0, 60⟩ = .error PyErr.keyError :=
  ⟨rfl, rfl, noteoff_unknown_pitch_keyerror 16000 mixerInit ⟨NOTE_OFF, 0, 60⟩ rfl rfl⟩

/-- Claim C2: an exhausted voice does NOT contribute nothing.  With a live
voice (amplitude 10, volume 100) iterated before an exhausted voice, the
`except StopIteration` handler lacks a `continue`, so the stale `note_sample`
is accumulated a second time: `vol_sum` ends at 200 and `amp_sum` at 2000
instead of 100 and 1000 (the exhausted voice is still added to `dead`); and
when the exhausted voice comes first, with no previously yielded sample, the
loop raises `UnboundLocalError`. -/
theorem exhausted_note_contributes_stale_sample :
    (sumLoop c2State).toOption.map
        (fun p => (p.1.volSum, p.1.ampSum, p.1.volMax, p.2.dead)) =
      some (200, 2000, 100, [2]) ∧
      ((200 : ℤ), (2000 : ℤ)) ≠ ((100 : ℤ), (1000 : ℤ)) ∧
      sumLoop c2StateRev = .error PyErr.unboundLocal := by
  refine ⟨rfl, by decide, rfl⟩

/-- Claim C3, counterexample: one sample of the idle Mixer yields 127, not
the 8-bit unsigned midpoint byte 128 the claim states. -/
theorem mixer_idle_emits_127_cex :
    sampleStep 16000 mixerInit = .ok (127, mixerInit) ∧ (127 : ℤ) ≠ 128 := by
  exact ⟨rfl, by decide⟩

/-- Claim C3, amended: whenever the per-sample volume sum is zero the
combine step emits 127 (the code's midpoint constant, one less than the
8-bit unsigned midpoint 128). -/
theorem zero_volume_sum_emits_127 (acc : SumAcc) (h : acc.volSum = 0) :
    combine acc = 127 := by
  simp [combine, h]

/-- Claim C3, witness: the amended theorem applied to the zero
accumulator. -/
theorem zero_volume_sum_emits_127_witness :
    (SumAcc.mk 0 0 0 none).volSum = 0 ∧ combine ⟨0, 0, 0, none⟩ = 127 :=
  ⟨rfl, zero_volume_sum_emits_127 ⟨0, 0, 0, none⟩ rfl⟩

/-- Claim C4, counterexample: a single live voice emitting amplitude 100 at
constant volume 128 produces the output byte 177, not `amplitude + midpoint`
(228 with the spec midpoint 128, or 227 with the code constant 127): the
amplitude is scaled by `V / V_MAX`, so presence alone does not preserve
it at partial volume. -/
theorem single_voice_not_amplitude_preserving_cex :
    (sampleStep 16000 (singleVoiceState 100 128)).map Prod.fst = .ok 177 ∧
      (177 : ℤ) ≠ 100 + 128 ∧ (177 : ℤ) ≠ 100 + 127 := by
  refine ⟨rfl, by decide, by decide⟩

/-- Claim C4, amended: for a single live voice emitting amplitude `a` at
constant volume `V > 0`, the combine step outputs
`a * V // ANALOGUE_MAX + 127`; only at full volume `V = 256` does this
equal `a + 127`, preserving the amplitude up to the 127 bias. -/
theorem single_voice_output_formula (a V : ℤ) (h : 0 < V) :
    (sampleStep 16000 (singleVoiceState a V)).map Prod.fst =
      .ok (Int.fdiv (a * V) 256 + 127) := by
  have hstep : (sampleStep 16000 (singleVoiceState a V)).map Prod.fst =
      .ok (combine ⟨if V > 0 then V else 0, 0 + V, 0 + V * a, some ⟨a, V⟩⟩) := rfl
  have hmax : (if V > 0 then V else 0) = V := if_pos h
  have hdiv : Int.fdiv ((0 + V * a) * V) ((0 + V) * 256) = Int.fdiv (a * V) 256 := by
    rw [zero_add, zero_add, Int.fdiv_eq_ediv _ (by omega : (0 : ℤ) ≤ V * 256),
        Int.fdiv_eq_ediv _ (by norm_num : (0 : ℤ) ≤ 256),
        show V * a * V = V * (a * V) by ring]
    exact Int.mul_ediv_mul_of_pos _ _ h
  rw [hstep]
  simp only [combine, ANALOGUE_MAX, hmax]
  rw [if_pos (show (0 : ℤ) + V ≠ 0 by omega), hdiv]

/-- Claim C4, witness: the amended theorem at amplitude 5 and full volume
256, where the output is `5 + 127`. -/
theorem single_voice_output_formula_witness :
    (0 : ℤ) < 256 ∧
      (sampleStep 16000 (singleVoiceState 5 256)).map Prod.fst =
        .ok (Int.fdiv (5 * 256) 256 + 127) :=
  ⟨by norm_num, single_voice_output_formula 5 256 (by norm_num)⟩

/-- Claim C5, counterexample: a burst of 10 NoteOns into a capacity-4
`deque(maxlen=4)` leaves the LAST four events (6, 7, 8, 9) queued, not the
first four; there is no overflow counter anywhere in the code. -/
theorem event_queue_overflow_drops_oldest_cex :
    burstQueue 4 10 = [noteOnEvent 6, noteOnEvent 7, noteOnEvent 8, noteOnEvent 9] ∧
      burstQueue 4 10 ≠ [noteOnEvent 0, noteOnEvent 1, noteOnEvent 2, noteOnEvent 3] := by
  exact ⟨rfl, by decide⟩

/-- Claim C5, amended: appending to a full `deque(maxlen=cap)` keeps the
incoming event and silently discards the OLDEST queued event; no counter is
incremented (none exists). -/
theorem append_full_queue_drops_oldest (cap : ℕ) (q : List NoteEvent) (e : NoteEvent)
    (hcap : 0 < cap) (hfull : q.length = cap) :
    appendMaxlen cap q e = q.tail ++ [e] := by
  cases q with
  | nil =>
    simp only [List.length_nil] at hfull
    omega
  | cons x q' =>
    have h1 : (x :: q').length + 1 - cap = 1 := by
      simp only [List.length_cons] at hfull ⊢
      omega
    simp only [appendMaxlen, h1]
    rfl

/-- Claim C5, witness: the amended theorem applied to a full capacity-4
queue. -/
theorem append_full_queue_drops_oldest_witness :
    0 < 4 ∧
      ([noteOnEvent 0, noteOnEvent 1, noteOnEvent 2, noteOnEvent 3] : List NoteEvent).length = 4 ∧
      appendMaxlen 4 [noteOnEvent 0, noteOnEvent 1, noteOnEvent 2, noteOnEvent 3] (noteOnEvent 9) =
        [noteOnEvent 0, noteOnEvent 1, noteOnEvent 2, noteOnEvent 3].tail ++ [noteOnEvent 9] :=
  ⟨by decide, by decide,
    append_full_queue_drops_oldest 4 _ (noteOnEvent 9) (by decide) (by decide)⟩

/-- Claim C6, counterexample: with `samples_per_cycle = 1 < 2` (e.g. MIDI
note 127 at 16000 Hz) — and even with `samples_per_cycle = 0` — the note
factory succeeds: no `NoteTooHigh` error exists in the code and no
samples-per-cycle check is performed. -/
theorem too_high_note_constructs_cex :
    (getNote 16000 60 (fun _ => 0) 1).isOk = true ∧
      (getNote 16000 60 (fun _ => 0) 0).isOk = true :=
  ⟨rfl, rfl⟩

/-- Claim C6, amended: `Synth.get_note` never fails on account of the pitch:
for EVERY `samples_per_cycle` (including 0 and 1) and every amplitude table,
construction with the default envelope succeeds; a too-high note merely gets
a degenerate oscillator table (empty for 0, so its generator would never
yield). -/
theorem get_note_never_fails (midi : ℤ) (amp : ℤ → ℤ) (samples_per_cycle : ℤ) :
    (getNote 16000 midi amp samples_per_cycle).isOk = true := rfl

/-- Claim C7, counterexample: `letter_note_to_midi_note("A4")` is 57 (the
map puts middle C at C5 = 60), whose frequency is 220 Hz — not within
0.1 Hz of 440. -/
theorem a4_frequency_not_440_cex :
    letter_note_to_midi_note ['A', '4'] = some 57 ∧
      (0.1 : ℝ) < |midi_note_to_frequency 57 - 440| := by
  constructor
  · rfl
  · have h57 : midi_note_to_frequency 57 = 220 := by
      have he : (((57 : ℤ) : ℝ) - 21) / 12 = ((3 : ℕ) : ℝ) := by push_cast; norm_num
      rw [midi_note_to_frequency, he, Real.rpow_natCast]
      norm_num
    rw [h57, show |(220 : ℝ) - 440| = 220 by rw [abs_sub_comm, abs_of_nonneg] <;> norm_num]
    norm_num

/-- Claim C7, amended: `letter_note_to_midi_note("A4") = 57` with frequency
exactly 220 Hz (it is A5 that maps to 69 and 440 Hz), while
`letter_note_to_midi_note("C5") = 60` and `letter_note_to_midi_note("C6") =
72` hold as claimed. -/
theorem letter_midi_frequency_roundtrip :
    letter_note_to_midi_note ['A', '4'] = some 57 ∧ midi_note_to_frequency 57 = 220 ∧
      letter_note_to_midi_note ['C', '5'] = some 60 ∧
      letter_note_to_midi_note ['C', '6'] = some 72 ∧
      letter_note_to_midi_note ['A', '5'] = some 69 ∧ midi_note_to_frequency 69 = 440 := by
  refine ⟨rfl, ?_, rfl, rfl, rfl, ?_⟩
  · have he : (((57 : ℤ) : ℝ) - 21) / 12 = ((3 : ℕ) : ℝ) := by push_cast; norm_num
    rw [midi_note_to_frequency, he, Real.rpow_natCast]
    norm_num
  · have he : (((69 : ℤ) : ℝ) - 21) / 12 = ((4 : ℕ) : ℝ) := by push_cast; norm_num
    rw [midi_note_to_frequency, he, Real.rpow_natCast]
    norm_num

/-- Claim C8: the ATTACK volume sequence is NOT monotone non-decreasing.
With valid parameters attack = decay = release = 1 ms at 16000 Hz and
sustain level 200, the decay loop of `_get_sample_idx_volume_map` overwrites
the attack-region entries (it omits the `+ num_attack_samples` offset its
sibling branch adds), so the first three samples are emitted during ATTACK
with volumes 0, 253, 250 — decreasing, and nowhere near ending at
`V_MAX`. -/
theorem attack_volumes_not_monotone :
    noteTrace 16000 60 [0] 1 1 1 200 3 = .ok [(1, 0), (1, 253), (1, 250)] ∧
      ¬ ((253 : ℤ) ≤ 250) := by
  exact ⟨rfl, by decide⟩

/-- Claim C9: constructing a `Note` with `attack_ms = decay_ms = release_ms
= 0` does NOT succeed: the derived counts `ms * S // 1000` are not clamped,
so `num_attack_samples = 0` and the attack branch divides `ANALOGUE_MAX` by
it, raising `ZeroDivisionError`. -/
theorem zero_envelope_construction_fails_cex :
    noteInit 16000 60 [0] 0 0 0 200 = .error PyErr.zeroDivision := rfl

/-- For any sample rate and any otherwise-valid envelope parameters, a zero
`attack_ms` makes `Note` construction raise `ZeroDivisionError`. -/
theorem zero_attack_raises_zero_division (S midi : ℤ) (table : List ℤ) (d r sl : ℤ)
    (hd : 0 ≤ d) (hr : 0 ≤ r) (hsl : 0 ≤ sl) (hsl' : sl ≤ ANALOGUE_MAX) :
    noteInit S midi table 0 d r sl = .error PyErr.zeroDivision := by
  have hd' : ¬(d < 0) := not_lt.mpr hd
  have hr' : ¬(r < 0) := not_lt.mpr hr
  have hsl2 : ¬(sl < 0 ∨ sl > ANALOGUE_MAX) := by
    push_neg
    exact ⟨hsl, hsl'⟩
  simp only [noteInit, validate_milliseconds, validate_analogue, if_neg hd', if_neg hr',
    if_neg hsl2, get_sample_idx_volume_map, pyFloorDiv, Int.zero_mul, Int.zero_fdiv]
  rfl

/-- Witness for `zero_attack_raises_zero_division` at concrete inputs. -/
theorem zero_attack_raises_zero_division_witness :
    (0 : ℤ) ≤ 0 ∧ (0 : ℤ) ≤ 200 ∧ (200 : ℤ) ≤ ANALOGUE_MAX ∧
      noteInit 16000 60 [0] 0 0 0 200 = .error PyErr.zeroDivision :=
  ⟨le_refl 0, by norm_num, by decide,
    zero_attack_raises_zero_division 16000 60 [0] 0 0 200 (le_refl 0) (le_refl 0)
      (by norm_num) (by decide)⟩

/-- One `simple_cache` call at a key whose stored value is absent or zero is
always a miss: the wrapped function is invoked and its value stored. -/
theorem simple_cache_call_miss {κ : Type} [DecidableEq κ] (func : κ → ℤ)
    (cache : κ → Option ℤ) (k : κ) (h : func k = 0)
    (hc : cache k = none ∨ cache k = some 0) :
    simple_cache_call func cache k = ⟨0, fun x => if x = k then some 0 else cache x, true⟩ := by
  rcases hc with hc | hc <;> simp [simple_cache_call, hc, h]

/-- After any number of `simple_cache` calls at a key with falsy result, the
cache at that key holds nothing or zero, and every call so far invoked the
wrapped function and returned 0. -/
theorem simple_cache_calls_falsy_aux {κ : Type} [DecidableEq κ] (func : κ → ℤ) (k : κ)
    (h : func k = 0) :
    ∀ n : ℕ,
      ((simple_cache_calls func k n).1 k = none ∨ (simple_cache_calls func k n).1 k = some 0) ∧
        (simple_cache_calls func k n).2 = List.replicate n ((0 : ℤ), true)
  | 0 => ⟨Or.inl rfl, rfl⟩
  | n + 1 => by
    obtain ⟨hc, hr⟩ := simple_cache_calls_falsy_aux func k h n
    have hcall := simple_cache_call_miss func (simple_cache_calls func k n).1 k h hc
    constructor
    · right
      show (simple_cache_call func (simple_cache_calls func k n).1 k).cache k = some 0
      rw [hcall]
      simp
    · show (simple_cache_calls func k n).2 ++
          [((simple_cache_call func (simple_cache_calls func k n).1 k).value,
            (simple_cache_call func (simple_cache_calls func k n).1 k).invoked)] =
        List.replicate (n + 1) ((0 : ℤ), true)
      rw [hcall, hr]
      simp [List.replicate_succ']

/-- Claim C10: for a `simple_cache`-wrapped function and a key whose
computed result is falsy (0, as for `letter_note_to_midi_note('C0')`), every
one of `n` successive calls invokes the wrapped function anew and returns
the fresh result 0, and yet the value 0 did get written into the cache —
written but never served, because the hit test is the truthiness of
`cache.get(key)`. -/
theorem falsy_cached_value_never_served {κ : Type} [DecidableEq κ] (func : κ → ℤ) (k : κ)
    (h : func k = 0) (n : ℕ) :
    (simple_cache_calls func k n).2 = List.replicate n ((0 : ℤ), true) ∧
      (0 < n → (simple_cache_calls func k n).1 k = some 0) := by
  refine ⟨(simple_cache_calls_falsy_aux func k h n).2, fun hn => ?_⟩
  match n, hn with
  | m + 1, _ =>
    obtain ⟨hc, _⟩ := simple_cache_calls_falsy_aux func k h m
    have hcall := simple_cache_call_miss func (simple_cache_calls func k m).1 k h hc
    show (simple_cache_call func (simple_cache_calls func k m).1 k).cache k = some 0
    rw [hcall]
    simp

/-- Claim C10, witness: the theorem applied to (the integer result of)
`letter_note_to_midi_note` at the key `C0`, whose value is 0, for two
calls. -/
theorem falsy_cached_value_never_served_witness :
    (fun s => (letter_note_to_midi_note s).getD 0) ['C', '0'] = 0 ∧
      ((simple_cache_calls (fun s => (letter_note_to_midi_note s).getD 0) ['C', '0'] 2).2 =
          List.replicate 2 ((0 : ℤ), true) ∧
        (0 < 2 → (simple_cache_calls (fun s => (letter_note_to_midi_note s).getD 0)
            ['C', '0'] 2).1 ['C', '0'] = some 0)) :=
  ⟨rfl, falsy_cached_value_never_served (fun s => (letter_note_to_midi_note s).getD 0)
    ['C', '0'] rfl 2⟩

end PySynth
